import Mathlib

/-!
Shallow embedding of the sentiment/trend-analysis core of the
Chatbot-Sentiment-Analysis repository (src/sentiment.py, src/analyzer.py).

Modelling conventions:
* Python floats are embedded as `ℚ` (all constants in the source are exact
  decimals); the single square root in `_calculate_volatility` is embedded
  as `Real.sqrt` over the rational variance.
* Python dicts returned by the source are embedded as structures; a key that
  a particular return site omits is an `Option` field set to `none` there.
* The third-party scorers (vaderSentiment, textblob, transformers pipeline)
  are external collaborators: they enter as function parameters, returning
  `Except Unit _` so that a raised exception can be modelled (`.error ()`).
* `re.search` over the compiled pattern lists is external (Python's regex
  engine); since the adjustment applied never depends on WHICH pattern
  matched, the two searches are embedded as boolean-valued parameters
  `negSearch`/`posSearch : String → Bool` of the engine, standing for
  "some pattern of the corresponding list matches the text".
-/

/-- Result record of a single-text sentiment analysis
(the dict built by the `analyze` methods in src/sentiment.py).
Analyzer-specific extra keys (`compound`, `positive`, `neutral`, `negative`,
`polarity`, `subjectivity`, `raw_label`, `raw_score`) carry no independent
information and are omitted. -/
structure SentimentResult where
  score : ℚ
  label : String
  confidence : ℚ
  adjusted_for_comparison : Bool := false
deriving DecidableEq, Repr

/-- `not text or not text.strip()` — empty or whitespace-only text. -/
def isBlank (s : String) : Bool :=
  s.toList.all Char.isWhitespace

/-- `VADERAnalyzer.get_label` (src/sentiment.py lines 82-89). -/
def vaderGetLabel (score : ℚ) : String :=
  if score ≥ 0.05 then "Positive"
  else if score ≤ -0.05 then "Negative"
  else "Neutral"

/-- `TextBlobAnalyzer.get_label` (src/sentiment.py lines 127-134). -/
def textblobGetLabel (score : ℚ) : String :=
  if score > 0.1 then "Positive"
  else if score < -0.1 then "Negative"
  else "Neutral"

/-- `TransformersAnalyzer.get_label` (src/sentiment.py lines 193-200). -/
def transformersGetLabel (score : ℚ) : String :=
  if score > 0.5 then "Positive"
  else if score < -0.5 then "Negative"
  else "Neutral"

/-- The three concrete strategy classes. Each carries its external backing
library as a function parameter: for VADER the `polarity_scores` compound
value, for TextBlob the `sentiment.polarity` value, for Transformers the
pipeline's `(label, score)` output; `.error ()` models a raised exception. -/
inductive Analyzer where
  | vader (polarity : String → Except Unit ℚ)
  | textblob (polarity : String → Except Unit ℚ)
  | transformers (raw : String → Except Unit (String × ℚ))

/-- Dispatch of `get_label` through the strategy (abstract method). -/
def Analyzer.get_label : Analyzer → ℚ → String
  | .vader _ => vaderGetLabel
  | .textblob _ => textblobGetLabel
  | .transformers _ => transformersGetLabel

/-- `VADERAnalyzer.analyze` (src/sentiment.py lines 56-80): blank text gives
the neutral default, otherwise score/label/confidence from the compound
value; an exception from the external library propagates. -/
def vaderAnalyze (polarity : String → Except Unit ℚ) (text : String) :
    Except Unit SentimentResult :=
  if isBlank text then .ok ⟨0, "Neutral", 0, false⟩
  else (polarity text).map fun compound =>
    ⟨compound, vaderGetLabel compound, |compound|, false⟩

/-- `TextBlobAnalyzer.analyze` (src/sentiment.py lines 104-125). -/
def textblobAnalyze (polarity : String → Except Unit ℚ) (text : String) :
    Except Unit SentimentResult :=
  if isBlank text then .ok ⟨0, "Neutral", 0, false⟩
  else (polarity text).map fun p =>
    ⟨p, textblobGetLabel p, |p|, false⟩

/-- `TransformersAnalyzer.analyze` (src/sentiment.py lines 153-191): blank
text returns the literal label "NEUTRAL" (line 157); the pipeline call is
wrapped in its own try/except mapping any failure to the neutral default,
so this analyze never raises; otherwise POSITIVE/NEGATIVE raw labels are
converted, any other raw label gives score 0 and label "Neutral". -/
def transformersAnalyze (raw : String → Except Unit (String × ℚ))
    (text : String) : Except Unit SentimentResult :=
  if isBlank text then .ok ⟨0, "NEUTRAL", 0, false⟩
  else .ok (match raw text with
    | .error _ => ⟨0, "Neutral", 0, false⟩
    | .ok (label, score) =>
      if label = "POSITIVE" then ⟨score, "Positive", score, false⟩
      else if label = "NEGATIVE" then ⟨-score, "Negative", score, false⟩
      else ⟨0, "Neutral", 0, false⟩)

/-- Dispatch of `analyze` through the strategy. -/
def Analyzer.analyzeBase : Analyzer → String → Except Unit SentimentResult
  | .vader p => vaderAnalyze p
  | .textblob p => textblobAnalyze p
  | .transformers r => transformersAnalyze r

/-- The two lexicon-backed analyzers, whose `analyze` derives the label via
their own `get_label` on every path. -/
def Analyzer.isLexiconBased : Analyzer → Bool
  | .vader _ => true
  | .textblob _ => true
  | .transformers _ => false

/-- Python's `str.lower()`, modelled characterwise over the char sequence
(core `String.toLower` is avoided only because it does not reduce
definitionally; this is the same function on the embedded texts). -/
def lowerStr (s : String) : String := ⟨s.toList.map Char.toLower⟩

/-- Substring containment, modelling Python's `sub in s`. -/
def containsStr (s sub : String) : Bool :=
  (List.range (s.toList.length + 1)).any fun i =>
    sub.toList.isPrefixOf (s.toList.drop i)

/-- The phrase list of the strong-negative branch
(src/sentiment.py line 291). -/
def pejorativePhrases : List String :=
  ["rubbish", "nonsense", "garbage", "trash", "crap", "stupid", "idiotic"]

/-- The phrase list of the "didn't find" branch (src/sentiment.py line 294). -/
def didntFindPhrases : List String :=
  ["didn\x27t find", "don\x27t find", "not find", "didnt find", "dont find"]

/-- The positive-adjective co-occurrence list (src/sentiment.py line 296). -/
def positiveAdjectives : List String :=
  ["interesting", "good", "great", "enjoyable", "engaging"]

/-- `max(-1.0, min(1.0, x))` (src/sentiment.py lines 308, 330). -/
def clampScore (q : ℚ) : ℚ := max (-1) (min 1 q)

/-- `SentimentEngine` state relevant to the core: the active strategy and
the outcome of `pattern.search(text)` over the two compiled pattern lists
(external regex engine, see module comment). -/
structure SentimentEngine where
  analyzer : Analyzer
  negSearch : String → Bool
  posSearch : String → Bool

/-- The adjusted score of the negative-pattern branch of
`SentimentEngine._detect_comparative_sentiment` (src/sentiment.py lines
290-305), as a function of the lower-cased text and the original score:
the fixed -0.7 on a pejorative phrase; -0.6 on a "didn\x27t find" phrase with a
positive adjective co-occurring, else -0.4; `-abs(original) - 0.4` when the
original score was positive; otherwise `original - 0.4`. -/
def negAdjustedScore (text_lower : String) (original : ℚ) : ℚ :=
  if pejorativePhrases.any (fun p => containsStr text_lower p) then -0.7
  else if didntFindPhrases.any (fun p => containsStr text_lower p) then
    if positiveAdjectives.any (fun w => containsStr text_lower w) then -0.6
    else -0.4
  else if original > 0 then -|original| - 0.4
  else original - 0.4

/-- The adjusted score of the positive-pattern branch
(src/sentiment.py lines 323-328). -/
def posAdjustedScore (original : ℚ) : ℚ :=
  if original < 0 then |original| + 0.2 else original + 0.2

/-- Fields written back after an adjustment (src/sentiment.py lines 310-314
and 331-335): the clamped adjusted score, the label re-derived through the
active analyzer, confidence `abs(score)`, and the adjustment flag. -/
def adjustResult (e : SentimentEngine) (adjusted : ℚ)
    (base : SentimentResult) : SentimentResult :=
  { base with
      score := adjusted
      label := e.analyzer.get_label adjusted
      confidence := |adjusted|
      adjusted_for_comparison := true }

/-- `SentimentEngine._detect_comparative_sentiment`
(src/sentiment.py lines 270-340): if some negative pattern matches, adjust
by `negAdjustedScore` (clamped); otherwise if some positive pattern matches,
adjust by `posAdjustedScore` (clamped); otherwise return the base result
unchanged. -/
def detect_comparative_sentiment (e : SentimentEngine) (text : String)
    (base : SentimentResult) : SentimentResult :=
  if e.negSearch text then
    adjustResult e (clampScore (negAdjustedScore (lowerStr text) base.score)) base
  else if e.posSearch text then
    adjustResult e (clampScore (posAdjustedScore base.score)) base
  else base

/-- `SentimentEngine.analyze_text` (src/sentiment.py lines 342-366): base
analysis then comparative adjustment, with any exception from the base
scorer caught and mapped to the neutral default. -/
def analyze_text (e : SentimentEngine) (text : String) : SentimentResult :=
  match e.analyzer.analyzeBase text with
  | .error _ => ⟨0, "Neutral", 0, false⟩
  | .ok r => detect_comparative_sentiment e text r


/-- An element of the `messages` list passed to
`SentimentEngine.analyze_conversation`: a dict with a "text" key, a plain
string, or anything else (a dict without "text", or a non-str non-dict
value), which the loop silently skips. -/
inductive Msg where
  | str (s : String)
  | dictWithText (text : String)
  | other
deriving DecidableEq

/-- The texts the loop of `analyze_conversation` actually analyzes
(src/sentiment.py lines 389-397), in order. -/
def validTexts : List Msg → List String
  | [] => []
  | .str s :: rest => s :: validTexts rest
  | .dictWithText t :: rest => t :: validTexts rest
  | .other :: rest => validTexts rest

/-- The `scores` list accumulated by `analyze_conversation`. -/
def convScores (e : SentimentEngine) (messages : List Msg) : List ℚ :=
  (validTexts messages).map fun t => (analyze_text e t).score

/-- The `labels` list accumulated by `analyze_conversation`. -/
def convLabels (e : SentimentEngine) (messages : List Msg) : List String :=
  (validTexts messages).map fun t => (analyze_text e t).label

/-- The label-distribution dict `{Positive, Negative, Neutral → count}`. -/
structure LabelCounts where
  positive : ℕ
  negative : ℕ
  neutral : ℕ
deriving DecidableEq

/-- `sum(1 for score in scores if score < -0.3)` (src/sentiment.py line 428). -/
def strongNegativeCount (scores : List ℚ) : ℕ :=
  (scores.filter fun s => s < -0.3).length

/-- `sum(1 for score in scores if score > 0.3)` (src/sentiment.py line 429). -/
def strongPositiveCount (scores : List ℚ) : ℕ :=
  (scores.filter fun s => s > 0.3).length

/-- The overall-sentiment decision cascade of `analyze_conversation`
(src/sentiment.py lines 437-450), with the counts compared over ℤ as in
Python. -/
def overallLabel (scores : List ℚ) (labels : List String) (avg_score : ℚ) :
    String :=
  let positive_count := labels.count "Positive"
  let negative_count := labels.count "Negative"
  let strong_negative_count := strongNegativeCount scores
  let strong_positive_count := strongPositiveCount scores
  if negative_count > positive_count ∧
      ((negative_count : ℤ) - positive_count ≥ 1 ∨ strong_negative_count > 0) then
    "Negative"
  else if positive_count > negative_count ∧
      (positive_count : ℤ) - negative_count ≥ 2 then
    "Positive"
  else if strong_negative_count > 0 ∧ negative_count ≥ positive_count then
    "Negative"
  else if strong_positive_count > 0 ∧ positive_count > negative_count then
    "Positive"
  else if avg_score < -0.1 then "Negative"
  else if avg_score > 0.1 then "Positive"
  else "Neutral"

/-- `SentimentEngine._generate_reasoning` (src/sentiment.py lines 465-486).
Numeric interpolation (`{n}`, `{avg_score:.3f}`) is abstracted by
`toString`; no claim depends on the rendering of the numbers. -/
def generate_reasoning (avg_score : ℚ) (counts : LabelCounts) (total : ℕ)
    (overall : String) : String :=
  if overall = "Negative" then
    if counts.negative > counts.positive then
      "Generally negative conversation with " ++ toString counts.negative ++
        "/" ++ toString total ++
        " negative messages. User expressed dissatisfaction or concerns."
    else if counts.negative = counts.positive then
      "Mixed conversation with negative tone. Equal negative and positive messages (" ++
        toString counts.negative ++
        " each), but overall sentiment is negative."
    else
      "Conversation with negative overall tone despite " ++
        toString counts.positive ++
        " positive messages. Strong negative statements influenced the assessment."
  else if overall = "Positive" then
    if counts.positive > counts.negative then
      "Generally positive conversation with " ++ toString counts.positive ++
        "/" ++ toString total ++
        " positive messages. User expressed satisfaction or positive feedback."
    else if counts.positive = counts.negative then
      "Mixed conversation with positive tone. Equal positive and negative messages (" ++
        toString counts.positive ++
        " each), but overall sentiment is positive."
    else
      "Conversation with positive overall tone. Average sentiment score of " ++
        toString avg_score ++ " indicates positive engagement."
  else
    "Neutral conversation with balanced sentiment. Distribution: " ++
      toString counts.positive ++ " positive, " ++ toString counts.negative ++
      " negative, " ++ toString counts.neutral ++ " neutral messages."

/-- The dict returned by `SentimentEngine.analyze_conversation`; the two
early-return dicts omit `label_distribution`, `scores` and `labels`, modelled
by `none`. -/
structure ConversationSummary where
  overall_sentiment : String
  average_score : ℚ
  total_messages : ℕ
  label_distribution : Option LabelCounts
  reasoning : String
  scores : Option (List ℚ)
  labels : Option (List String)
deriving DecidableEq

/-- `SentimentEngine.analyze_conversation` (src/sentiment.py lines 368-463). -/
def analyze_conversation (e : SentimentEngine) (messages : List Msg) :
    ConversationSummary :=
  if messages.isEmpty then
    ⟨"Neutral", 0, 0, none, "No messages to analyze", none, none⟩
  else
    let scores := convScores e messages
    let labels := convLabels e messages
    if scores.isEmpty then
      ⟨"Neutral", 0, 0, none, "No valid messages to analyze", none, none⟩
    else
      let avg_score := scores.sum / scores.length
      let counts : LabelCounts :=
        ⟨labels.count "Positive", labels.count "Negative", labels.count "Neutral"⟩
      let overall := overallLabel scores labels avg_score
      ⟨overall, avg_score, labels.length, some counts,
        generate_reasoning avg_score counts labels.length overall,
        some scores, some labels⟩

/-- One entry of the `progression` list
(src/analyzer.py lines 95-108). -/
structure ProgressionEntry where
  message_index : ℕ
  score : ℚ
  label : String
  cumulative_avg : ℚ
deriving DecidableEq

/-- A record of the `key_moments` list: the two dict shapes appended by
`TrendAnalyzer._identify_key_moments` (src/analyzer.py lines 124-142). -/
inductive KeyMoment where
  | significant_shift (message_index : ℕ) (direction : String) (magnitude : ℚ)
      (from_score to_score : ℚ) (from_label to_label : String)
  | extreme_sentiment (message_index : ℕ) (sentiment : String) (score : ℚ)
deriving DecidableEq

/-- The `message_index` field of a key moment. -/
def KeyMoment.mIndex : KeyMoment → ℕ
  | .significant_shift i _ _ _ _ _ _ => i
  | .extreme_sentiment i _ _ => i

/-- Whether the `type` field is `significant_shift`. -/
def KeyMoment.isShift : KeyMoment → Bool
  | .significant_shift _ _ _ _ _ _ _ => true
  | .extreme_sentiment _ _ _ => false

/-- `TrendAnalyzer._calculate_progression` (src/analyzer.py lines 95-108):
`zip(scores, labels)` iterates `min` of the lengths; entry i carries the
cumulative mean of `scores[0..i]`. -/
def calculate_progression (scores : List ℚ) (labels : List String) :
    List ProgressionEntry :=
  (List.range (min scores.length labels.length)).map fun i =>
    ⟨i + 1, scores.getD i 0, labels.getD i "",
      (scores.take (i + 1)).sum / (i + 1)⟩

/-- The (zero, one or two) key moments contributed by loop iteration `i` of
`TrendAnalyzer._identify_key_moments` (src/analyzer.py lines 118-142): a
significant-shift record when `|scores[i]-scores[i-1]| > 0.3`, then an
extreme-sentiment record when `|scores[i]| > 0.7`.  Out-of-range list access
(an IndexError in Python) is totalized with `getD` defaults; every claim
quantifies over in-range indices. -/
def momentBlock (scores : List ℚ) (labels : List String) (i : ℕ) :
    List KeyMoment :=
  let si := scores.getD i 0
  let sp := scores.getD (i - 1) 0
  let change := |si - sp|
  (if change > 0.3 then
    [KeyMoment.significant_shift (i + 1)
      (if si > sp then "positive" else "negative") change sp si
      (labels.getD (i - 1) "") (labels.getD i "")]
  else [])
  ++ (if |si| > 0.7 then
    [KeyMoment.extreme_sentiment (i + 1) (labels.getD i "") si]
  else [])

/-- `TrendAnalyzer._identify_key_moments` (src/analyzer.py lines 110-144):
empty below 2 scores, otherwise the records appended by the loop
`for i in range(1, len(scores))` in iteration order. -/
def identify_key_moments (scores : List ℚ) (labels : List String) :
    List KeyMoment :=
  if scores.length < 2 then []
  else (List.range' 1 (scores.length - 1)).flatMap (momentBlock scores labels)

/-- `mean = sum(scores) / len(scores)` (src/analyzer.py line 151). -/
def listMean (l : List ℚ) : ℚ := l.sum / l.length

/-- `variance = sum((x - mean) ** 2 for x in scores) / len(scores)`
(src/analyzer.py line 152). -/
def listVariance (l : List ℚ) : ℚ :=
  ((l.map fun x => (x - listMean l) ^ 2).sum) / l.length

/-- `TrendAnalyzer._calculate_volatility` (src/analyzer.py lines 146-153):
0.0 below 2 scores, else `variance ** 0.5`, embedded as the real square root
of the exact rational variance. -/
noncomputable def calculate_volatility (scores : List ℚ) : ℝ :=
  if scores.length < 2 then 0
  else Real.sqrt (listVariance scores)

/-- `TrendAnalyzer._determine_trend` (src/analyzer.py lines 68-77). -/
def determine_trend (first_avg second_avg : ℚ) : String :=
  if second_avg - first_avg > 0.1 then "improving"
  else if first_avg - second_avg > 0.1 then "declining"
  else "stable"

/-- `TrendAnalyzer._generate_trend_description` (src/analyzer.py lines
79-93); the `:.2f` rendering of the averages is abstracted by `toString`,
no claim depends on it. -/
def generate_trend_description (trend : String) (first_avg second_avg : ℚ) :
    String :=
  if trend = "improving" then
    if first_avg < -0.1 then
      "Started negative → Shifted positive (improved from " ++
        toString first_avg ++ " to " ++ toString second_avg ++ ")"
    else
      "Became increasingly positive (improved from " ++ toString first_avg ++
        " to " ++ toString second_avg ++ ")"
  else if trend = "declining" then
    if second_avg < -0.1 then
      "Started positive/neutral → Shifted negative (declined from " ++
        toString first_avg ++ " to " ++ toString second_avg ++ ")"
    else
      "Became less positive (declined from " ++ toString first_avg ++
        " to " ++ toString second_avg ++ ")"
  else
    "Remained relatively stable (around " ++ toString first_avg ++ ")"

/-- The dict returned by `TrendAnalyzer.analyze_trend`; the
insufficient-data return (src/analyzer.py lines 31-38) omits the
`key_moments` and `volatility` keys, modelled by `none`. -/
structure TrendResult where
  trend : String
  description : String
  first_half_avg : ℚ
  second_half_avg : ℚ
  progression : List ProgressionEntry
  key_moments : Option (List KeyMoment)
  volatility : Option ℝ

/-- `TrendAnalyzer.analyze_trend` (src/analyzer.py lines 19-66). -/
noncomputable def analyze_trend (scores : List ℚ) (labels : List String) :
    TrendResult :=
  if scores.length < 2 then
    ⟨"insufficient_data", "Not enough messages to analyze trend", 0, 0, [],
      none, none⟩
  else
    let mid := scores.length / 2
    let first_half := scores.take mid
    let second_half := scores.drop mid
    let first_half_avg :=
      if first_half.isEmpty then 0 else first_half.sum / first_half.length
    let second_half_avg :=
      if second_half.isEmpty then 0 else second_half.sum / second_half.length
    let trend := determine_trend first_half_avg second_half_avg
    ⟨trend, generate_trend_description trend first_half_avg second_half_avg,
      first_half_avg, second_half_avg,
      calculate_progression scores labels,
      some (identify_key_moments scores labels),
      some (calculate_volatility scores)⟩

/-- The fields `TrendAnalyzer.summarize_insights` reads from its
`trend_analysis` argument: `trend` (a `[]`-access, always required),
`key_moments` and `volatility` (both read with `.get`, so possibly absent,
modelled by `Option`). -/
structure TrendInput where
  trend : String
  key_moments : Option (List KeyMoment)
  volatility : Option ℝ

/-- The field `summarize_insights` reads from its `overall_sentiment`
argument: the possibly-absent `label_distribution` dict.  (`none` also
stands for a present-but-empty dict, which is falsy in Python exactly like
a missing key.) -/
structure OverallInput where
  label_distribution : Option LabelCounts

/-- The trend-keyed first sentence of `summarize_insights`
(src/analyzer.py lines 170-175); the `else` branch covers "stable" and any
other trend value, including "insufficient_data". -/
def trendInsight (trend : String) : String :=
  if trend = "improving" then "Conversation mood improved over time"
  else if trend = "declining" then "Conversation mood declined over time"
  else "Sentiment remained relatively consistent"

/-- The shift-count sentence of `summarize_insights`
(src/analyzer.py lines 178-182): emitted when `key_moments` is present and
truthy (non-empty) and contains at least one significant shift. -/
def keyMomentInsights (km : Option (List KeyMoment)) : List String :=
  if (km.getD []).isEmpty then []
  else
    let significant_shifts := (km.getD []).filter KeyMoment.isShift
    if significant_shifts.isEmpty then []
    else
      ["Detected " ++ toString significant_shifts.length ++
        " significant sentiment shift(s)"]

/-- The distribution sentence of `summarize_insights`
(src/analyzer.py lines 185-193): emitted when `label_distribution` is
present and truthy. -/
def distributionInsights (ld : Option LabelCounts) : List String :=
  match ld with
  | none => []
  | some dist =>
    let total := dist.positive + dist.negative + dist.neutral
    if dist.positive > dist.negative then
      ["Predominantly positive messages (" ++ toString dist.positive ++
        "/" ++ toString total ++ ")"]
    else if dist.negative > dist.positive then
      ["Predominantly negative messages (" ++ toString dist.negative ++
        "/" ++ toString total ++ ")"]
    else ["Balanced mix of positive and negative messages"]

/-- The volatility sentence of `summarize_insights`
(src/analyzer.py lines 196-200): `volatility` is read with a 0.0 default,
high above 0.3, low below 0.1, nothing in between. -/
noncomputable def volatilityInsights (vol : Option ℝ) : List String :=
  let volatility := vol.getD 0
  if volatility > 0.3 then
    ["High sentiment volatility - mood changed frequently"]
  else if volatility < 0.1 then
    ["Low sentiment volatility - consistent emotional tone"]
  else []

/-- `TrendAnalyzer.summarize_insights` (src/analyzer.py lines 155-202): the
`insights` list built by appending, in order, the trend sentence, the
shift-count sentence, the distribution sentence and the volatility
sentence (each of the last three possibly absent). -/
noncomputable def summarize_insights (ta : TrendInput) (ov : OverallInput) :
    List String :=
  trendInsight ta.trend
    :: (keyMomentInsights ta.key_moments
      ++ distributionInsights ov.label_distribution
      ++ volatilityInsights ta.volatility)

/-- Branch lemma: a negative-pattern match adjusts through `negAdjustedScore`. -/
theorem detect_neg_eq (e : SentimentEngine) (t : String) (base : SentimentResult)
    (h : e.negSearch t = true) :
    detect_comparative_sentiment e t base
      = adjustResult e (clampScore (negAdjustedScore (lowerStr t) base.score)) base := by
  simp [detect_comparative_sentiment, h]

/-- Branch lemma: no negative match but a positive match adjusts through
`posAdjustedScore`. -/
theorem detect_pos_eq (e : SentimentEngine) (t : String) (base : SentimentResult)
    (h1 : e.negSearch t = false) (h2 : e.posSearch t = true) :
    detect_comparative_sentiment e t base
      = adjustResult e (clampScore (posAdjustedScore base.score)) base := by
  simp [detect_comparative_sentiment, h1, h2]

/-- Branch lemma: no pattern match returns the base result unchanged. -/
theorem detect_none_eq (e : SentimentEngine) (t : String) (base : SentimentResult)
    (h1 : e.negSearch t = false) (h2 : e.posSearch t = false) :
    detect_comparative_sentiment e t base = base := by
  simp [detect_comparative_sentiment, h1, h2]

/-- Clamping is the identity on `[-1, 1]`. -/
theorem clampScore_eq_self (q : ℚ) (h1 : -1 ≤ q) (h2 : q ≤ 1) : clampScore q = q := by
  unfold clampScore
  rw [min_eq_right h2, max_eq_right h1]

/-- Unfolding lemma: when the base scorer succeeds, `analyze_text` is the
comparative adjustment of its result. -/
theorem analyze_text_ok (e : SentimentEngine) (t : String) (r : SentimentResult)
    (h : e.analyzer.analyzeBase t = .ok r) :
    analyze_text e t = detect_comparative_sentiment e t r := by
  unfold analyze_text
  rw [h]

/-- Unfolding lemma: when the base scorer raises, `analyze_text` returns the
neutral default. -/
theorem analyze_text_error (e : SentimentEngine) (t : String)
    (h : e.analyzer.analyzeBase t = .error ()) :
    analyze_text e t = ⟨0, "Neutral", 0, false⟩ := by
  unfold analyze_text
  rw [h]

/-- Every analyzer labels a zero score "Neutral" through `get_label`. -/
theorem get_label_zero (a : Analyzer) : a.get_label 0 = "Neutral" := by
  cases a <;>
    simp [Analyzer.get_label, vaderGetLabel, textblobGetLabel,
      transformersGetLabel] <;>
    norm_num

/-- For the two lexicon-backed analyzers, a successful base analysis always
carries `label = get_label score`. -/
theorem lexicon_base_label (a : Analyzer) (t : String) (r : SentimentResult)
    (ha : a.isLexiconBased = true) (hb : a.analyzeBase t = .ok r) :
    r.label = a.get_label r.score := by
  cases a with
  | vader p =>
    rw [Analyzer.analyzeBase, vaderAnalyze] at hb
    by_cases hbl : isBlank t = true
    · rw [if_pos hbl] at hb
      cases hb
      exact (get_label_zero (Analyzer.vader p)).symm
    · rw [if_neg hbl] at hb
      cases hpt : p t with
      | error u => rw [hpt] at hb; cases hb
      | ok c =>
        rw [hpt] at hb
        cases hb
        rfl
  | textblob p =>
    rw [Analyzer.analyzeBase, textblobAnalyze] at hb
    by_cases hbl : isBlank t = true
    · rw [if_pos hbl] at hb
      cases hb
      exact (get_label_zero (Analyzer.textblob p)).symm
    · rw [if_neg hbl] at hb
      cases hpt : p t with
      | error u => rw [hpt] at hb; cases hb
      | ok c =>
        rw [hpt] at hb
        cases hb
        rfl
  | transformers r => cases ha

/-- C1 (amended): the invariant `label = get_label(score)` holds for every
input under the VADER and TextBlob analyzers, and under every analyzer
whenever the Comparative Adjuster fires (a negative or positive pattern
matches, in which case the label is re-derived from the adjusted score);
it is NOT guaranteed for the Transformers analyzer when the base result is
returned unchanged, because that path takes the label from the model's raw
label instead of `get_label` (see `C1_counterexample`). -/
theorem C1_label_consistency (e : SentimentEngine) (t : String)
    (h : e.analyzer.isLexiconBased = true ∨ e.negSearch t = true ∨
      e.posSearch t = true) :
    (analyze_text e t).label = e.analyzer.get_label (analyze_text e t).score := by
  cases hb : e.analyzer.analyzeBase t with
  | error u =>
    cases u
    rw [analyze_text_error _ _ hb]
    exact (get_label_zero e.analyzer).symm
  | ok r =>
    rw [analyze_text_ok _ _ _ hb]
    cases hneg : e.negSearch t with
    | true => rw [detect_neg_eq _ _ _ hneg, adjustResult]
    | false =>
      cases hpos : e.posSearch t with
      | true => rw [detect_pos_eq _ _ _ hneg hpos, adjustResult]
      | false =>
        rw [detect_none_eq _ _ _ hneg hpos]
        rcases h with hlex | hc | hc
        · exact lexicon_base_label _ _ _ hlex hb
        · rw [hneg] at hc; cases hc
        · rw [hpos] at hc; cases hc

/-- Witness for `C1_label_consistency` at a concrete VADER engine. -/
theorem C1_label_consistency_witness :
    ((⟨.vader fun _ => .ok 0.5, fun _ => false, fun _ => false⟩ :
        SentimentEngine).analyzer.isLexiconBased = true ∨
      (⟨.vader fun _ => .ok 0.5, fun _ => false, fun _ => false⟩ :
        SentimentEngine).negSearch "nice" = true ∨
      (⟨.vader fun _ => .ok 0.5, fun _ => false, fun _ => false⟩ :
        SentimentEngine).posSearch "nice" = true)
    ∧ (analyze_text ⟨.vader fun _ => .ok 0.5, fun _ => false, fun _ => false⟩
        "nice").label
      = (⟨.vader fun _ => .ok 0.5, fun _ => false, fun _ => false⟩ :
        SentimentEngine).analyzer.get_label
          (analyze_text ⟨.vader fun _ => .ok 0.5, fun _ => false, fun _ => false⟩
            "nice").score :=
  ⟨Or.inl rfl, C1_label_consistency _ _ (Or.inl rfl)⟩

/-- C1 counterexample: under the Transformers analyzer with a raw pipeline
output `("POSITIVE", 0.4)` on a non-blank text that matches no pattern, the
base result is returned unchanged with label "Positive" and score 0.4, but
`get_label(0.4) = "Neutral"` under the transformers ±0.5 thresholds — the
claimed invariant fails for the unchanged Transformers path. -/
theorem C1_counterexample :
    (analyze_text ⟨.transformers fun _ => .ok ("POSITIVE", 0.4),
        fun _ => false, fun _ => false⟩ "hello").label
      ≠ (⟨.transformers fun _ => .ok ("POSITIVE", 0.4),
        fun _ => false, fun _ => false⟩ : SentimentEngine).analyzer.get_label
          (analyze_text ⟨.transformers fun _ => .ok ("POSITIVE", 0.4),
            fun _ => false, fun _ => false⟩ "hello").score := by
  rw [analyze_text_ok ⟨.transformers fun _ => .ok ("POSITIVE", 0.4),
      fun _ => false, fun _ => false⟩ "hello" ⟨0.4, "Positive", 0.4, false⟩ rfl,
    detect_none_eq _ _ _ rfl rfl]
  show "Positive" ≠ transformersGetLabel 0.4
  rw [transformersGetLabel, if_neg (by norm_num), if_neg (by norm_num)]
  decide

/-- C2 (amended): whenever some negative pattern matches and the lowercased
text contains one of the seven phrases of the source's pejorative list
("rubbish", "nonsense", "garbage", "trash", "crap", "stupid", "idiotic"),
the adjusted score is the fixed strong-negative -0.7, regardless of the base
score and of the other rules (b), (c), (d).  The spec's claim extends this
to "pathetic", which is only a pattern word, not in the -0.7 vocabulary
(see `C2_counterexample`). -/
theorem C2_pejorative_fixed_score (e : SentimentEngine) (t : String)
    (base : SentimentResult) (h1 : e.negSearch t = true)
    (h2 : pejorativePhrases.any (fun p => containsStr (lowerStr t) p) = true) :
    (detect_comparative_sentiment e t base).score = -0.7 := by
  rw [detect_neg_eq _ _ _ h1]
  show clampScore (negAdjustedScore (lowerStr t) base.score) = -0.7
  rw [negAdjustedScore, if_pos h2, clampScore_eq_self] <;> norm_num

/-- Witness for `C2_pejorative_fixed_score`: "Don\x27t talk rubbish" (matched
by the pejorative regex alternation) over a positive base score 0.3. -/
theorem C2_pejorative_fixed_score_witness :
    ((⟨.vader fun _ => .ok 0.3, fun _ => true, fun _ => false⟩ :
        SentimentEngine).negSearch "Don\x27t talk rubbish" = true)
    ∧ pejorativePhrases.any
        (fun p => containsStr (lowerStr "Don\x27t talk rubbish") p) = true
    ∧ (detect_comparative_sentiment
        ⟨.vader fun _ => .ok 0.3, fun _ => true, fun _ => false⟩
        "Don\x27t talk rubbish" ⟨0.3, "Positive", 0.3, false⟩).score = -0.7 :=
  ⟨rfl, rfl, C2_pejorative_fixed_score _ _ _ rfl rfl⟩

/-- C2 counterexample: "pathetic" is named by the spec as pejorative
vocabulary and does match a negative pattern (the word alternation of
src/sentiment.py line 240), but it is not in the seven-phrase list checked
by the -0.7 branch (line 291), so rule (d) applies instead: the adjusted
score from a neutral base is -0.4, not -0.7. -/
theorem C2_counterexample :
    (detect_comparative_sentiment
        ⟨.vader fun _ => .ok 0, fun _ => true, fun _ => false⟩
        "pathetic" ⟨0, "Neutral", 0, false⟩).score = -0.4
    ∧ (detect_comparative_sentiment
        ⟨.vader fun _ => .ok 0, fun _ => true, fun _ => false⟩
        "pathetic" ⟨0, "Neutral", 0, false⟩).score ≠ -0.7 := by
  have h : (detect_comparative_sentiment
      ⟨.vader fun _ => .ok 0, fun _ => true, fun _ => false⟩
      "pathetic" ⟨0, "Neutral", 0, false⟩).score = -0.4 := by
    rw [detect_neg_eq _ _ _ rfl]
    show clampScore (negAdjustedScore (lowerStr "pathetic") 0) = -0.4
    rw [negAdjustedScore, if_neg (by decide), if_neg (by decide),
      if_neg (by norm_num), clampScore_eq_self] <;> norm_num
  exact ⟨h, by rw [h]; norm_num⟩

/-- C5: evaluation of the code at the failing input.  The Transformers
analyzer on empty (and whitespace-only) text returns the literal label
"NEUTRAL" (src/sentiment.py line 157), not the "Neutral" required by the
abstract interface docstring, the spec, and every other analyzer and path
(including this analyzer's own exception path). -/
theorem C5_transformers_blank_label :
    (Analyzer.transformers fun _ => .ok ("POSITIVE", 1)).analyzeBase ""
      = .ok ⟨0, "NEUTRAL", 0, false⟩
    ∧ (Analyzer.transformers fun _ => .ok ("POSITIVE", 1)).analyzeBase "   "
      = .ok ⟨0, "NEUTRAL", 0, false⟩
    ∧ "NEUTRAL" ≠ "Neutral" :=
  ⟨rfl, rfl, by decide⟩

/-- C7 (amended): the fixed-score rules of the negative branch — (a) the
pejorative -0.7 and (b) the "didn\x27t find" -0.6 and -0.4 — are idempotent:
re-applying the adjuster to the already-adjusted result yields the same
result, because the adjusted score does not depend on the incoming score.
The engine itself applies the adjuster exactly once per `analyze_text`
call, so repeated calls on a fixed text agree; but for rules (c), (d) and
the positive branch a re-application double-penalizes
(see `C7_counterexample`). -/
theorem C7_fixed_rules_idempotent (e : SentimentEngine) (t : String)
    (base : SentimentResult) (h1 : e.negSearch t = true)
    (h2 : pejorativePhrases.any (fun p => containsStr (lowerStr t) p) = true
      ∨ (pejorativePhrases.any (fun p => containsStr (lowerStr t) p) = false
        ∧ didntFindPhrases.any (fun p => containsStr (lowerStr t) p) = true)) :
    detect_comparative_sentiment e t (detect_comparative_sentiment e t base)
      = detect_comparative_sentiment e t base := by
  have hA : ∀ x : ℚ, negAdjustedScore (lowerStr t) x
      = negAdjustedScore (lowerStr t) base.score := by
    intro x
    rcases h2 with hpej | ⟨hpej, hfind⟩
    · simp [negAdjustedScore, hpej]
    · simp [negAdjustedScore, hpej, hfind]
  rw [detect_neg_eq _ _ _ h1, detect_neg_eq _ _ _ h1,
    hA ((adjustResult e
      (clampScore (negAdjustedScore (lowerStr t) base.score)) base).score)]
  rfl

/-- Witness for `C7_fixed_rules_idempotent` on a pejorative text. -/
theorem C7_fixed_rules_idempotent_witness :
    ((⟨.vader fun _ => .ok 0, fun _ => true, fun _ => false⟩ :
        SentimentEngine).negSearch "this is rubbish" = true)
    ∧ (pejorativePhrases.any
        (fun p => containsStr (lowerStr "this is rubbish") p) = true
      ∨ (pejorativePhrases.any
          (fun p => containsStr (lowerStr "this is rubbish") p) = false
        ∧ didntFindPhrases.any
          (fun p => containsStr (lowerStr "this is rubbish") p) = true))
    ∧ detect_comparative_sentiment
        ⟨.vader fun _ => .ok 0, fun _ => true, fun _ => false⟩ "this is rubbish"
        (detect_comparative_sentiment
          ⟨.vader fun _ => .ok 0, fun _ => true, fun _ => false⟩
          "this is rubbish" ⟨0, "Neutral", 0, false⟩)
      = detect_comparative_sentiment
          ⟨.vader fun _ => .ok 0, fun _ => true, fun _ => false⟩
          "this is rubbish" ⟨0, "Neutral", 0, false⟩ :=
  ⟨rfl, Or.inl rfl, C7_fixed_rules_idempotent _ _ _ rfl (Or.inl rfl)⟩

/-- C7 counterexample: on the pattern-matching text "that is not good"
(rule (d)), one application of the adjuster to a neutral base gives score
-0.4, and applying it again to the already-adjusted result gives -0.8 — the
adjustment step double-penalizes, so "repeated application yields the same
adjusted score" fails. -/
theorem C7_counterexample :
    (detect_comparative_sentiment
        ⟨.vader fun _ => .ok 0, fun _ => true, fun _ => false⟩
        "that is not good" ⟨0, "Neutral", 0, false⟩).score = -0.4
    ∧ (detect_comparative_sentiment
        ⟨.vader fun _ => .ok 0, fun _ => true, fun _ => false⟩
        "that is not good"
        (detect_comparative_sentiment
          ⟨.vader fun _ => .ok 0, fun _ => true, fun _ => false⟩
          "that is not good" ⟨0, "Neutral", 0, false⟩)).score = -0.8
    ∧ ((-0.8 : ℚ) ≠ -0.4) := by
  have h1 : (detect_comparative_sentiment
      ⟨.vader fun _ => .ok 0, fun _ => true, fun _ => false⟩
      "that is not good" ⟨0, "Neutral", 0, false⟩).score = -0.4 := by
    rw [detect_neg_eq _ _ _ rfl]
    show clampScore (negAdjustedScore (lowerStr "that is not good") 0) = -0.4
    rw [negAdjustedScore, if_neg (by decide), if_neg (by decide),
      if_neg (by norm_num), clampScore_eq_self] <;> norm_num
  refine ⟨h1, ?_, by norm_num⟩
  rw [detect_neg_eq _ _ _ rfl]
  show clampScore (negAdjustedScore (lowerStr "that is not good")
    (detect_comparative_sentiment
      ⟨.vader fun _ => .ok 0, fun _ => true, fun _ => false⟩
      "that is not good" ⟨0, "Neutral", 0, false⟩).score) = -0.8
  rw [h1, negAdjustedScore, if_neg (by decide), if_neg (by decide),
    if_neg (by norm_num), clampScore_eq_self] <;> norm_num

/-- A message list of only invalid elements contributes no analyzed texts. -/
theorem validTexts_all_other (messages : List Msg)
    (h : ∀ m ∈ messages, m = Msg.other) : validTexts messages = [] := by
  induction messages with
  | nil => rfl
  | cons m rest ih =>
    have hm := h m (List.mem_cons_self m rest)
    subst hm
    exact ih fun x hx => h x (List.mem_cons_of_mem _ hx)

/-- C3: whenever the labels collected by the Conversation Aggregator contain
strictly more "Negative" than "Positive" entries, rule 1 of the decision
cascade fires (over the integers, `neg > pos` already gives
`neg - pos ≥ 1`), so the overall sentiment is "Negative" — regardless of
the average score and of all later rules. -/
theorem C3_negative_majority (e : SentimentEngine) (messages : List Msg)
    (h : (convLabels e messages).count "Negative"
      > (convLabels e messages).count "Positive") :
    (analyze_conversation e messages).overall_sentiment = "Negative" := by
  have hlabels_ne : convLabels e messages ≠ [] := by
    intro hnil
    rw [hnil] at h
    exact absurd h (by simp)
  have hmsg : messages.isEmpty = false := by
    cases messages with
    | nil => exact absurd rfl hlabels_ne
    | cons m rest => rfl
  have hscores : (convScores e messages).isEmpty = false := by
    cases hv : validTexts messages with
    | nil => exact absurd (by rw [convLabels, hv]; rfl) hlabels_ne
    | cons a l => rw [convScores, hv]; rfl
  have hcond : (convLabels e messages).count "Negative"
      > (convLabels e messages).count "Positive"
    ∧ (((convLabels e messages).count "Negative" : ℤ)
        - ((convLabels e messages).count "Positive" : ℤ) ≥ 1
      ∨ strongNegativeCount (convScores e messages) > 0) :=
    ⟨h, Or.inl (by omega)⟩
  simp only [analyze_conversation, hmsg, Bool.false_eq_true, if_false, hscores]
  show overallLabel (convScores e messages) (convLabels e messages) _ = "Negative"
  simp only [overallLabel]
  rw [if_pos hcond]

/-- Witness for `C3_negative_majority` on a single clearly negative message. -/
theorem C3_negative_majority_witness :
    (convLabels ⟨.vader fun _ => .ok (-0.5), fun _ => false, fun _ => false⟩
        [Msg.str "bad"]).count "Negative"
      > (convLabels ⟨.vader fun _ => .ok (-0.5), fun _ => false, fun _ => false⟩
        [Msg.str "bad"]).count "Positive"
    ∧ (analyze_conversation
        ⟨.vader fun _ => .ok (-0.5), fun _ => false, fun _ => false⟩
        [Msg.str "bad"]).overall_sentiment = "Negative" := by
  have hcl : convLabels ⟨.vader fun _ => .ok (-0.5), fun _ => false, fun _ => false⟩
      [Msg.str "bad"] = [vaderGetLabel (-0.5)] := by
    show [(analyze_text ⟨.vader fun _ => .ok (-0.5), fun _ => false, fun _ => false⟩
      "bad").label] = [vaderGetLabel (-0.5)]
    rw [analyze_text_ok ⟨.vader fun _ => .ok (-0.5), fun _ => false, fun _ => false⟩
      "bad" ⟨-0.5, vaderGetLabel (-0.5), |(-0.5 : ℚ)|, false⟩ rfl,
      detect_none_eq _ _ _ rfl rfl]
  have hlbl : vaderGetLabel (-0.5) = "Negative" := by
    rw [vaderGetLabel, if_neg (by norm_num), if_pos (by norm_num)]
  have hcount : (convLabels ⟨.vader fun _ => .ok (-0.5), fun _ => false, fun _ => false⟩
      [Msg.str "bad"]).count "Negative"
    > (convLabels ⟨.vader fun _ => .ok (-0.5), fun _ => false, fun _ => false⟩
      [Msg.str "bad"]).count "Positive" := by
    rw [hcl, hlbl]
    decide
  exact ⟨hcount, C3_negative_majority _ _ hcount⟩

/-- C9: `analyze_conversation` silently skips every element that is neither
a string nor a dict with a "text" key; a non-empty list of only such
elements produces the Neutral/0.0/0 result with reasoning
"No valid messages to analyze", distinct from the reasoning
"No messages to analyze" of the empty-list early return. -/
theorem C9_invalid_messages_skipped (e : SentimentEngine)
    (messages : List Msg) (h1 : messages ≠ [])
    (h2 : ∀ m ∈ messages, m = Msg.other) :
    analyze_conversation e messages
      = ⟨"Neutral", 0, 0, none, "No valid messages to analyze", none, none⟩
    ∧ analyze_conversation e []
      = ⟨"Neutral", 0, 0, none, "No messages to analyze", none, none⟩
    ∧ "No valid messages to analyze" ≠ "No messages to analyze" := by
  have hv : validTexts messages = [] := validTexts_all_other messages h2
  have hmsg : messages.isEmpty = false := by
    cases messages with
    | nil => exact absurd rfl h1
    | cons m rest => rfl
  refine ⟨?_, rfl, by decide⟩
  simp only [analyze_conversation, hmsg, Bool.false_eq_true, if_false,
    convScores, convLabels, hv, List.map_nil, List.isEmpty_nil, if_true]

/-- Witness for `C9_invalid_messages_skipped` on the one-element invalid
list. -/
theorem C9_invalid_messages_skipped_witness :
    (([Msg.other] : List Msg) ≠ [] ∧ ∀ m ∈ ([Msg.other] : List Msg), m = Msg.other)
    ∧ analyze_conversation ⟨.vader fun _ => .ok 0, fun _ => false, fun _ => false⟩
        [Msg.other]
      = ⟨"Neutral", 0, 0, none, "No valid messages to analyze", none, none⟩ :=
  ⟨⟨by decide, by decide⟩,
    (C9_invalid_messages_skipped _ _ (by decide) (by decide)).1⟩

/-- Casting a sum of rationals to the reals distributes over the list. -/
theorem ratCast_list_sum (l : List ℚ) :
    ((l.sum : ℚ) : ℝ) = (l.map fun q : ℚ => (q : ℝ)).sum := by
  induction l with
  | nil => simp
  | cons a t ih => simp [ih]

/-- The rational mean of the source, cast to ℝ, is the mean computed in ℝ. -/
theorem listMean_cast (l : List ℚ) :
    ((listMean l : ℚ) : ℝ) = (l.map fun q : ℚ => (q : ℝ)).sum / l.length := by
  rw [listMean, Rat.cast_div, ratCast_list_sum, Rat.cast_natCast]

/-- The rational variance of the source, cast to ℝ, is the population
variance `mean((x - mean)^2)` computed in ℝ. -/
theorem listVariance_cast (l : List ℚ) :
    ((listVariance l : ℚ) : ℝ)
      = ((l.map fun x : ℚ =>
          ((x : ℝ) - (l.map fun q : ℚ => (q : ℝ)).sum / l.length) ^ 2).sum)
        / l.length := by
  rw [listVariance, Rat.cast_div, ratCast_list_sum, Rat.cast_natCast,
    List.map_map]
  have hfun : (Rat.cast ∘ fun x : ℚ => (x - listMean l) ^ 2)
      = (fun x : ℚ =>
          ((x : ℝ) - (l.map fun q : ℚ => (q : ℝ)).sum / l.length) ^ 2) := by
    funext x
    simp only [Function.comp]
    push_cast
    rw [listMean_cast]
  rw [hfun]

/-- C6 (amended): `analyze_trend` reports `insufficient_data` exactly when
fewer than 2 scores are supplied; in that case the returned record has both
averages 0.0 and empty progression but contains NO `key_moments` and NO
`volatility` entries at all (the helpers `_identify_key_moments` and
`_calculate_volatility` would return `[]` and `0.0`, which is what a
consumer reading the dict with those defaults observes). -/
theorem C6_insufficient_data (scores : List ℚ) (labels : List String) :
    ((analyze_trend scores labels).trend = "insufficient_data"
      ↔ scores.length < 2)
    ∧ (scores.length < 2 →
        analyze_trend scores labels
          = ⟨"insufficient_data", "Not enough messages to analyze trend",
              0, 0, [], none, none⟩
        ∧ identify_key_moments scores labels = []
        ∧ calculate_volatility scores = 0) := by
  by_cases h : scores.length < 2
  · exact ⟨⟨fun _ => h, fun _ => by simp [analyze_trend, h]⟩,
      fun _ => ⟨by simp [analyze_trend, h], by simp [identify_key_moments, h],
        by simp [calculate_volatility, h]⟩⟩
  · refine ⟨⟨fun htr => ?_, fun h2 => absurd h2 h⟩, fun h2 => absurd h2 h⟩
    exfalso
    simp only [analyze_trend] at htr
    rw [if_neg h] at htr
    rw [show (⟨determine_trend _ _, _, _, _, _, _, _⟩ : TrendResult).trend
      = determine_trend
        (if (scores.take (scores.length / 2)).isEmpty then 0
          else (scores.take (scores.length / 2)).sum
            / (scores.take (scores.length / 2)).length)
        (if (scores.drop (scores.length / 2)).isEmpty then 0
          else (scores.drop (scores.length / 2)).sum
            / (scores.drop (scores.length / 2)).length) from rfl] at htr
    rw [determine_trend] at htr
    split_ifs at htr <;> exact absurd htr (by decide)

/-- Witness for `C6_insufficient_data` at the empty input. -/
theorem C6_insufficient_data_witness :
    (([] : List ℚ).length < 2)
    ∧ analyze_trend ([] : List ℚ) ([] : List String)
      = ⟨"insufficient_data", "Not enough messages to analyze trend",
          0, 0, [], none, none⟩
    ∧ identify_key_moments ([] : List ℚ) ([] : List String) = []
    ∧ calculate_volatility ([] : List ℚ) = 0 := by
  have h := (C6_insufficient_data ([] : List ℚ) ([] : List String)).2 (by decide)
  exact ⟨by decide, h.1, h.2.1, h.2.2⟩

/-- C6 counterexample: the insufficient-data return value carries no
`key_moments` and no `volatility` keys (`none`), so the claim's reading
that the returned record contains an empty `key_moments` sequence and a 0.0
`volatility` is false at the empty input. -/
theorem C6_counterexample :
    (analyze_trend ([] : List ℚ) ([] : List String)).key_moments = none
    ∧ (analyze_trend ([] : List ℚ) ([] : List String)).volatility = none
    ∧ ¬((analyze_trend ([] : List ℚ) ([] : List String)).key_moments = some []
        ∧ (analyze_trend ([] : List ℚ) ([] : List String)).volatility
          = some 0) := by
  have h1 : (analyze_trend ([] : List ℚ) ([] : List String)).key_moments
      = none := by
    simp [analyze_trend]
  have h2 : (analyze_trend ([] : List ℚ) ([] : List String)).volatility
      = none := by
    simp [analyze_trend]
  refine ⟨h1, h2, fun hc => ?_⟩
  rw [h1] at hc
  exact absurd hc.1 (by simp)

/-- C8: the volatility of at least 2 scores is exactly the population
standard deviation `sqrt(mean((x - mean)^2))` computed in ℝ; volatility is
always nonnegative; every constant sequence has volatility 0; and the spec's
high-volatility sequence `[0.8,-0.7,0.6,-0.5,0.4]` has strictly greater
volatility than the low one `[0.1,0.0,0.1,0.0,0.1]`. -/
theorem C8_volatility :
    (∀ scores : List ℚ, 2 ≤ scores.length →
      calculate_volatility scores
        = Real.sqrt (((scores.map fun x : ℚ =>
            ((x : ℝ) - (scores.map fun q : ℚ => (q : ℝ)).sum / scores.length) ^ 2).sum)
          / scores.length))
    ∧ (∀ scores : List ℚ, 0 ≤ calculate_volatility scores)
    ∧ (∀ (q : ℚ) (n : ℕ), calculate_volatility (List.replicate n q) = 0)
    ∧ calculate_volatility [0.1, 0, 0.1, 0, 0.1]
      < calculate_volatility [0.8, -0.7, 0.6, -0.5, 0.4] := by
  refine ⟨?_, ?_, ?_, ?_⟩
  · intro scores hlen
    rw [calculate_volatility, if_neg (by omega), listVariance_cast]
  · intro scores
    rw [calculate_volatility]
    split_ifs
    · exact le_refl 0
    · exact Real.sqrt_nonneg _
  · intro q n
    by_cases hn : (List.replicate n q).length < 2
    · rw [calculate_volatility, if_pos hn]
    · have hn0 : (n : ℚ) ≠ 0 := by
        rw [List.length_replicate] at hn
        exact Nat.cast_ne_zero.mpr (by omega)
      have hmean : listMean (List.replicate n q) = q := by
        rw [listMean, List.sum_replicate, List.length_replicate,
          nsmul_eq_mul, mul_comm, mul_div_assoc, div_self hn0, mul_one]
      have hvar : listVariance (List.replicate n q) = 0 := by
        rw [listVariance, hmean, List.map_replicate]
        simp
      rw [calculate_volatility, if_neg hn, hvar]
      simp [Real.sqrt_zero]
  · have e1 : listVariance [0.1, 0, 0.1, 0, 0.1] = 3 / 1250 := by
      norm_num [listVariance, listMean]
    have e2 : listVariance [0.8, -0.7, 0.6, -0.5, 0.4] = 457 / 1250 := by
      norm_num [listVariance, listMean]
    rw [calculate_volatility, calculate_volatility, if_neg (by decide),
      if_neg (by decide), e1, e2]
    apply Real.sqrt_lt_sqrt
    · push_cast
      norm_num
    · push_cast
      norm_num

/-- Witness for `C8_volatility` (the conjunct with a hypothesis) at the
two-element list `[0, 1]`. -/
theorem C8_volatility_witness :
    2 ≤ ([0, 1] : List ℚ).length
    ∧ calculate_volatility ([0, 1] : List ℚ)
      = Real.sqrt (((([0, 1] : List ℚ).map fun x : ℚ =>
          ((x : ℝ) - (([0, 1] : List ℚ).map fun q : ℚ => (q : ℝ)).sum
            / ([0, 1] : List ℚ).length) ^ 2).sum)
        / ([0, 1] : List ℚ).length) :=
  ⟨by decide, C8_volatility.1 [0, 1] (by decide)⟩

/-- Membership in the block contributed by loop iteration `i`: exactly the
guarded shift record and the guarded extreme record. -/
theorem mem_momentBlock (s : List ℚ) (l : List String) (i : ℕ)
    (m : KeyMoment) :
    m ∈ momentBlock s l i
      ↔ (0.3 < |s.getD i 0 - s.getD (i - 1) 0|
          ∧ m = KeyMoment.significant_shift (i + 1)
              (if s.getD i 0 > s.getD (i - 1) 0 then "positive" else "negative")
              |s.getD i 0 - s.getD (i - 1) 0| (s.getD (i - 1) 0) (s.getD i 0)
              (l.getD (i - 1) "") (l.getD i ""))
        ∨ (0.7 < |s.getD i 0|
          ∧ m = KeyMoment.extreme_sentiment (i + 1) (l.getD i "")
              (s.getD i 0)) := by
  by_cases hc1 : (0.3 : ℚ) < |s.getD i 0 - s.getD (i - 1) 0|
  · by_cases hc2 : (0.7 : ℚ) < |s.getD i 0|
    · simp only [momentBlock, gt_iff_lt, if_pos hc1, if_pos hc2,
        List.mem_append, List.mem_singleton]
      tauto
    · simp only [momentBlock, gt_iff_lt, if_pos hc1, if_neg hc2,
        List.append_nil, List.mem_singleton]
      tauto
  · by_cases hc2 : (0.7 : ℚ) < |s.getD i 0|
    · simp only [momentBlock, gt_iff_lt, if_neg hc1, if_pos hc2,
        List.nil_append, List.mem_singleton]
      tauto
    · simp only [momentBlock, gt_iff_lt, if_neg hc1, if_neg hc2,
        List.append_nil]
      constructor
      · intro h
        exact absurd h (List.not_mem_nil m)
      · rintro (⟨hbad, _⟩ | ⟨hbad, _⟩) <;> contradiction

/-- Every record of block `i` carries message index `i + 1`. -/
theorem momentBlock_mIndex (s : List ℚ) (l : List String) (i : ℕ)
    (m : KeyMoment) (hm : m ∈ momentBlock s l i) : m.mIndex = i + 1 := by
  rcases (mem_momentBlock s l i m).mp hm with ⟨_, rfl⟩ | ⟨_, rfl⟩ <;> rfl

/-- Each block is internally ordered: the shift record precedes the extreme
record of the same index. -/
theorem momentBlock_pairwise (s : List ℚ) (l : List String) (i : ℕ) :
    (momentBlock s l i).Pairwise (fun a b =>
      a.mIndex < b.mIndex
        ∨ (a.mIndex = b.mIndex ∧ a.isShift = true ∧ b.isShift = false)) := by
  simp only [momentBlock]
  split_ifs <;>
    simp [List.pairwise_cons, KeyMoment.mIndex, KeyMoment.isShift]

/-- With at least 2 scores, the key-moment list is the concatenation of the
blocks of iterations 1 to `len - 1`. -/
theorem keyMoments_eq (s : List ℚ) (l : List String) (h2 : 2 ≤ s.length) :
    identify_key_moments s l
      = (List.range' 1 (s.length - 1)).flatMap (momentBlock s l) := by
  rw [identify_key_moments, if_neg (by omega)]

/-- Membership in the key-moment list, reduced to membership in a block at
an in-range loop index. -/
theorem mem_keyMoments_iff (s : List ℚ) (l : List String) (h2 : 2 ≤ s.length)
    (m : KeyMoment) :
    m ∈ identify_key_moments s l
      ↔ ∃ i, (1 ≤ i ∧ i < s.length) ∧ m ∈ momentBlock s l i := by
  rw [keyMoments_eq s l h2, List.mem_flatMap]
  constructor
  · rintro ⟨i, hi, hm⟩
    have := List.mem_range'_1.mp hi
    exact ⟨i, ⟨this.1, by omega⟩, hm⟩
  · rintro ⟨i, ⟨h1, hlt⟩, hm⟩
    exact ⟨i, List.mem_range'_1.mpr ⟨h1, by omega⟩, hm⟩

/-- The flattened blocks of a strictly increasing index list are pairwise
ordered by message index, with the within-block order on ties. -/
theorem flatMap_momentBlock_pairwise (s : List ℚ) (l : List String)
    (idxs : List ℕ) (hsort : idxs.Pairwise (· < ·)) :
    (idxs.flatMap (momentBlock s l)).Pairwise (fun a b =>
      a.mIndex < b.mIndex
        ∨ (a.mIndex = b.mIndex ∧ a.isShift = true ∧ b.isShift = false)) := by
  induction idxs with
  | nil => exact List.Pairwise.nil
  | cons j t ih =>
    rw [List.flatMap_cons, List.pairwise_append]
    rcases List.pairwise_cons.mp hsort with ⟨hj, ht⟩
    refine ⟨momentBlock_pairwise s l j, ih ht, ?_⟩
    intro x hx y hy
    rcases List.mem_flatMap.mp hy with ⟨k, hk, hyk⟩
    left
    rw [momentBlock_mIndex s l j x hx, momentBlock_mIndex s l k y hyk]
    exact Nat.succ_lt_succ (hj k hk)

/-- C4: for at least 2 scores, the key-moment list contains a
significant-shift record at message index `i + 1` exactly when
`|scores[i] - scores[i-1]| > 0.3` (and then the full record, with direction
"positive" iff the score increased and magnitude the absolute difference,
is present), and an extreme-sentiment record at `i + 1` exactly when
`|scores[i]| > 0.7`; every record arises from such an in-range `i`; the
records are in ascending message-index order with shift records before
extreme records of the same index; and on the spec's example scores
`[0.1, 0.2, -0.6, 0.3, 0.8]` a shift is flagged at message index 3 and an
extreme sentiment at message index 5. -/
theorem C4_key_moments (scores : List ℚ) (labels : List String)
    (h2 : 2 ≤ scores.length) :
    (∀ i, 1 ≤ i → i < scores.length →
      ((∃ m ∈ identify_key_moments scores labels,
          m.isShift = true ∧ m.mIndex = i + 1)
        ↔ 0.3 < |scores.getD i 0 - scores.getD (i - 1) 0|)
      ∧ (0.3 < |scores.getD i 0 - scores.getD (i - 1) 0| →
          KeyMoment.significant_shift (i + 1)
            (if scores.getD i 0 > scores.getD (i - 1) 0 then "positive"
              else "negative")
            |scores.getD i 0 - scores.getD (i - 1) 0|
            (scores.getD (i - 1) 0) (scores.getD i 0)
            (labels.getD (i - 1) "") (labels.getD i "")
            ∈ identify_key_moments scores labels)
      ∧ ((∃ m ∈ identify_key_moments scores labels,
          m.isShift = false ∧ m.mIndex = i + 1)
        ↔ 0.7 < |scores.getD i 0|)
      ∧ (0.7 < |scores.getD i 0| →
          KeyMoment.extreme_sentiment (i + 1) (labels.getD i "")
            (scores.getD i 0)
            ∈ identify_key_moments scores labels))
    ∧ (∀ m ∈ identify_key_moments scores labels,
        ∃ i, 1 ≤ i ∧ i < scores.length ∧ m.mIndex = i + 1)
    ∧ (identify_key_moments scores labels).Pairwise (fun a b =>
        a.mIndex < b.mIndex
          ∨ (a.mIndex = b.mIndex ∧ a.isShift = true ∧ b.isShift = false))
    ∧ (∃ m ∈ identify_key_moments [0.1, 0.2, -0.6, 0.3, 0.8]
        ["Neutral", "Positive", "Negative", "Positive", "Positive"],
        m.isShift = true ∧ m.mIndex = 3)
    ∧ (∃ m ∈ identify_key_moments [0.1, 0.2, -0.6, 0.3, 0.8]
        ["Neutral", "Positive", "Negative", "Positive", "Positive"],
        m.isShift = false ∧ m.mIndex = 5) := by
  have main : ∀ (s : List ℚ) (l : List String), 2 ≤ s.length →
      ∀ i, 1 ≤ i → i < s.length →
      ((∃ m ∈ identify_key_moments s l, m.isShift = true ∧ m.mIndex = i + 1)
        ↔ 0.3 < |s.getD i 0 - s.getD (i - 1) 0|)
      ∧ (0.3 < |s.getD i 0 - s.getD (i - 1) 0| →
          KeyMoment.significant_shift (i + 1)
            (if s.getD i 0 > s.getD (i - 1) 0 then "positive" else "negative")
            |s.getD i 0 - s.getD (i - 1) 0| (s.getD (i - 1) 0) (s.getD i 0)
            (l.getD (i - 1) "") (l.getD i "")
            ∈ identify_key_moments s l)
      ∧ ((∃ m ∈ identify_key_moments s l, m.isShift = false ∧ m.mIndex = i + 1)
        ↔ 0.7 < |s.getD i 0|)
      ∧ (0.7 < |s.getD i 0| →
          KeyMoment.extreme_sentiment (i + 1) (l.getD i "") (s.getD i 0)
            ∈ identify_key_moments s l) := by
    intro s l hs i h1 hi
    have hshift_mem : 0.3 < |s.getD i 0 - s.getD (i - 1) 0| →
        KeyMoment.significant_shift (i + 1)
          (if s.getD i 0 > s.getD (i - 1) 0 then "positive" else "negative")
          |s.getD i 0 - s.getD (i - 1) 0| (s.getD (i - 1) 0) (s.getD i 0)
          (l.getD (i - 1) "") (l.getD i "")
          ∈ identify_key_moments s l := by
      intro hgt
      exact (mem_keyMoments_iff s l hs _).mpr
        ⟨i, ⟨h1, hi⟩, (mem_momentBlock s l i _).mpr (Or.inl ⟨hgt, rfl⟩)⟩
    have hext_mem : 0.7 < |s.getD i 0| →
        KeyMoment.extreme_sentiment (i + 1) (l.getD i "") (s.getD i 0)
          ∈ identify_key_moments s l := by
      intro hgt
      exact (mem_keyMoments_iff s l hs _).mpr
        ⟨i, ⟨h1, hi⟩, (mem_momentBlock s l i _).mpr (Or.inr ⟨hgt, rfl⟩)⟩
    refine ⟨⟨?_, fun hgt => ⟨_, hshift_mem hgt, rfl, rfl⟩⟩, hshift_mem,
      ⟨?_, fun hgt => ⟨_, hext_mem hgt, rfl, rfl⟩⟩, hext_mem⟩
    · rintro ⟨m, hm, hsh, hidx⟩
      rcases (mem_keyMoments_iff s l hs m).mp hm with ⟨j, ⟨hj1, hjlt⟩, hbm⟩
      rcases (mem_momentBlock s l j m).mp hbm with ⟨hgt, rfl⟩ | ⟨hgt, rfl⟩
      · have : j = i := by
          simpa [KeyMoment.mIndex] using hidx
        rwa [this] at hgt
      · exact absurd hsh (by simp [KeyMoment.isShift])
    · rintro ⟨m, hm, hsh, hidx⟩
      rcases (mem_keyMoments_iff s l hs m).mp hm with ⟨j, ⟨hj1, hjlt⟩, hbm⟩
      rcases (mem_momentBlock s l j m).mp hbm with ⟨hgt, rfl⟩ | ⟨hgt, rfl⟩
      · exact absurd hsh (by simp [KeyMoment.isShift])
      · have : j = i := by
          simpa [KeyMoment.mIndex] using hidx
        rwa [this] at hgt
  refine ⟨main scores labels h2, ?_, ?_, ?_, ?_⟩
  · intro m hm
    rcases (mem_keyMoments_iff scores labels h2 m).mp hm with ⟨i, ⟨h1, hi⟩, hbm⟩
    exact ⟨i, h1, hi, momentBlock_mIndex scores labels i m hbm⟩
  · rw [keyMoments_eq scores labels h2]
    exact flatMap_momentBlock_pairwise scores labels _
      (List.pairwise_lt_range' _ _ 1 (by omega))
  · refine ((main [0.1, 0.2, -0.6, 0.3, 0.8]
      ["Neutral", "Positive", "Negative", "Positive", "Positive"]
      (by decide) 2 (by decide) (by decide)).1).mpr ?_
    show (0.3 : ℚ) < |(-0.6 : ℚ) - 0.2|
    rw [show ((-0.6 : ℚ) - 0.2) = -0.8 by norm_num,
      abs_of_neg (by norm_num : (-0.8 : ℚ) < 0)]
    norm_num
  · refine ((main [0.1, 0.2, -0.6, 0.3, 0.8]
      ["Neutral", "Positive", "Negative", "Positive", "Positive"]
      (by decide) 4 (by decide) (by decide)).2.2.1).mpr ?_
    show (0.7 : ℚ) < |(0.8 : ℚ)|
    rw [abs_of_pos (by norm_num : (0 : ℚ) < 0.8)]
    norm_num

/-- Witness for `C4_key_moments` at the spec's example input. -/
theorem C4_key_moments_witness :
    2 ≤ ([0.1, 0.2, -0.6, 0.3, 0.8] : List ℚ).length
    ∧ (∃ m ∈ identify_key_moments [0.1, 0.2, -0.6, 0.3, 0.8]
        ["Neutral", "Positive", "Negative", "Positive", "Positive"],
        m.isShift = true ∧ m.mIndex = 3)
    ∧ (∃ m ∈ identify_key_moments [0.1, 0.2, -0.6, 0.3, 0.8]
        ["Neutral", "Positive", "Negative", "Positive", "Positive"],
        m.isShift = false ∧ m.mIndex = 5) :=
  ⟨by decide,
    (C4_key_moments [0.1, 0.2, -0.6, 0.3, 0.8]
      ["Neutral", "Positive", "Negative", "Positive", "Positive"]
      (by decide)).2.2.2.1,
    (C4_key_moments [0.1, 0.2, -0.6, 0.3, 0.8]
      ["Neutral", "Positive", "Negative", "Positive", "Positive"]
      (by decide)).2.2.2.2⟩

/-- The shift-count part has at most one sentence. -/
theorem keyMomentInsights_len (km : Option (List KeyMoment)) :
    (keyMomentInsights km).length ≤ 1 := by
  simp only [keyMomentInsights]
  split_ifs <;> simp

/-- Every sentence of the shift-count part is a "Detected ..." sentence. -/
theorem keyMomentInsights_mem (km : Option (List KeyMoment)) :
    ∀ s ∈ keyMomentInsights km, ∃ n : ℕ,
      s = "Detected " ++ toString n ++ " significant sentiment shift(s)" := by
  intro s hs
  simp only [keyMomentInsights] at hs
  split_ifs at hs
  · cases hs
  · cases hs
  · rw [List.mem_singleton] at hs
    exact ⟨_, hs⟩

/-- The distribution part has at most one sentence. -/
theorem distributionInsights_len (ld : Option LabelCounts) :
    (distributionInsights ld).length ≤ 1 := by
  cases ld with
  | none => simp [distributionInsights]
  | some d =>
    simp only [distributionInsights]
    split_ifs <;> simp

/-- Every sentence of the distribution part is one of the three
distribution sentences. -/
theorem distributionInsights_mem (ld : Option LabelCounts) :
    ∀ s ∈ distributionInsights ld,
      (∃ p t : ℕ, s = "Predominantly positive messages (" ++ toString p ++
        "/" ++ toString t ++ ")")
      ∨ (∃ p t : ℕ, s = "Predominantly negative messages (" ++ toString p ++
        "/" ++ toString t ++ ")")
      ∨ s = "Balanced mix of positive and negative messages" := by
  intro s hs
  cases ld with
  | none => cases hs
  | some d =>
    simp only [distributionInsights] at hs
    split_ifs at hs
    · rw [List.mem_singleton] at hs
      exact Or.inl ⟨_, _, hs⟩
    · rw [List.mem_singleton] at hs
      exact Or.inr (Or.inl ⟨_, _, hs⟩)
    · rw [List.mem_singleton] at hs
      exact Or.inr (Or.inr hs)

/-- The volatility part has at most one sentence. -/
theorem volatilityInsights_len (vol : Option ℝ) :
    (volatilityInsights vol).length ≤ 1 := by
  simp only [volatilityInsights]
  split_ifs <;> simp

/-- Every sentence of the volatility part is the high or the low sentence. -/
theorem volatilityInsights_mem (vol : Option ℝ) :
    ∀ s ∈ volatilityInsights vol,
      s = "High sentiment volatility - mood changed frequently"
      ∨ s = "Low sentiment volatility - consistent emotional tone" := by
  intro s hs
  simp only [volatilityInsights] at hs
  split_ifs at hs
  · exact Or.inl (List.mem_singleton.mp hs)
  · exact Or.inr (List.mem_singleton.mp hs)
  · cases hs

/-- An absent `volatility` key defaults to 0.0 and emits the low sentence. -/
theorem volatilityInsights_none :
    volatilityInsights none
      = ["Low sentiment volatility - consistent emotional tone"] := by
  rw [volatilityInsights]
  simp only [Option.getD_none]
  rw [if_neg (by norm_num), if_pos (by norm_num)]

/-- C10: `summarize_insights` always returns between 1 and 4 sentences; the
first is the trend-keyed sentence (the "stable" wording also covering
`insufficient_data`); the rest consists of at most one shift-count
sentence, at most one distribution sentence and at most one volatility
sentence, in that order; and an absent `volatility` key defaults to 0.0,
emitting the low-volatility sentence. -/
theorem C10_summarize_shape (ta : TrendInput) (ov : OverallInput) :
    1 ≤ (summarize_insights ta ov).length
    ∧ (summarize_insights ta ov).length ≤ 4
    ∧ (ta.trend = "insufficient_data" →
        (summarize_insights ta ov).head?
          = some "Sentiment remained relatively consistent")
    ∧ (ta.volatility = none →
        "Low sentiment volatility - consistent emotional tone"
          ∈ summarize_insights ta ov)
    ∧ ∃ A B C : List String,
        summarize_insights ta ov
          = (if ta.trend = "improving" then
              "Conversation mood improved over time"
            else if ta.trend = "declining" then
              "Conversation mood declined over time"
            else "Sentiment remained relatively consistent") :: (A ++ B ++ C)
        ∧ A.length ≤ 1 ∧ B.length ≤ 1 ∧ C.length ≤ 1
        ∧ (∀ s ∈ A, ∃ n : ℕ,
            s = "Detected " ++ toString n ++ " significant sentiment shift(s)")
        ∧ (∀ s ∈ B,
            (∃ p t : ℕ, s = "Predominantly positive messages ("
              ++ toString p ++ "/" ++ toString t ++ ")")
            ∨ (∃ p t : ℕ, s = "Predominantly negative messages ("
              ++ toString p ++ "/" ++ toString t ++ ")")
            ∨ s = "Balanced mix of positive and negative messages")
        ∧ (∀ s ∈ C,
            s = "High sentiment volatility - mood changed frequently"
            ∨ s = "Low sentiment volatility - consistent emotional tone") := by
  have hA := keyMomentInsights_len ta.key_moments
  have hB := distributionInsights_len ov.label_distribution
  have hC := volatilityInsights_len ta.volatility
  refine ⟨by simp [summarize_insights], ?_, ?_, ?_,
    keyMomentInsights ta.key_moments, distributionInsights ov.label_distribution,
    volatilityInsights ta.volatility, rfl, hA, hB, hC,
    keyMomentInsights_mem _, distributionInsights_mem _, volatilityInsights_mem _⟩
  · rw [summarize_insights]
    simp only [List.length_cons, List.length_append]
    omega
  · intro h
    rw [summarize_insights]
    simp only [List.head?_cons]
    rw [trendInsight, h, if_neg (by decide), if_neg (by decide)]
  · intro h
    rw [summarize_insights, h, volatilityInsights_none]
    simp [List.mem_append]

/-- Witness for `C10_summarize_shape` (the conjuncts with hypotheses) at an
insufficient-data trend input with no volatility key. -/
theorem C10_summarize_shape_witness :
    (⟨"insufficient_data", none, none⟩ : TrendInput).trend = "insufficient_data"
    ∧ (⟨"insufficient_data", none, none⟩ : TrendInput).volatility = none
    ∧ (summarize_insights ⟨"insufficient_data", none, none⟩ ⟨none⟩).head?
      = some "Sentiment remained relatively consistent"
    ∧ "Low sentiment volatility - consistent emotional tone"
      ∈ summarize_insights ⟨"insufficient_data", none, none⟩ ⟨none⟩ :=
  ⟨rfl, rfl,
    (C10_summarize_shape ⟨"insufficient_data", none, none⟩ ⟨none⟩).2.2.1 rfl,
    (C10_summarize_shape ⟨"insufficient_data", none, none⟩ ⟨none⟩).2.2.2.1 rfl⟩
